import Mathlib

/-!
Shallow embedding of the virtual-machine configuration reconciliation
subsystem of terraform-provider-vsphere:
`vsphere/virtual_machine_config_structure.go` (field codec, version gate,
change classifier, config diff engine) and
`vsphere/virtual_machine_guest_structure.go` (guest network selector).

Modelling conventions:
* Terraform `ResourceData` is modelled as a pair of field records plus the
  resource id (`VMData`): `Get` reads the current record, `GetChange`
  returns the (prior, current) pair, `d.Set` updates the current record,
  `HasChange` compares the two records at the key.  Re-creating the data
  from its own state (`Data(d.State())`) makes the two records coincide.
* Machine integers are modelled as `Int`; every numeric field involved is
  schema-validated to a small range, so overflow is not observable in the
  modelled code paths.
* Go maps are modelled as association lists with unique keys; map
  assignment is replace-or-append.  Go's nondeterministic map iteration
  order is abstracted as list order (no settled claim depends on it).
* `*bool` / `*int64` fields of the vSphere API payloads are `Option Bool` /
  `Option Int`.
* Error returns are `Except String`.
-/

/-- Modelled from the spec: the `viapi` version helper package is not in the
source tree under scrutiny.  Per spec section 4.2 each gated field declares a
minimum remote version as a major.minor.patch triple and support is decided
by comparing triples (the product component never differs at the call
sites, which always pass `version.Product`). -/
structure VSphereVersion where
  major : Int
  minor : Int
  patch : Int
  deriving DecidableEq

/-- Modelled from the spec: lexicographic at-least comparison of
major.minor.patch triples (spec section 4.2, `Supported(field,
remoteVersion)` with a minimum version per field). -/
def VSphereVersion.atLeast (v m : VSphereVersion) : Bool :=
  decide (m.major < v.major ∨ (m.major = v.major ∧
    (m.minor < v.minor ∨ (m.minor = v.minor ∧ m.patch ≤ v.patch))))

/-- Modelled from the spec: strict lexicographic comparison, the `Newer`
variant used by the EFI secure-boot gate. -/
def VSphereVersion.newer (v m : VSphereVersion) : Bool :=
  decide (m.major < v.major ∨ (m.major = v.major ∧
    (m.minor < v.minor ∨ (m.minor = v.minor ∧ m.patch < v.patch))))

/-- `types.SharesInfo`: a share level and a custom share count. -/
structure SharesInfo where
  level : String
  shares : Int
  deriving DecidableEq

/-- `types.ResourceAllocationInfo`, restricted to the fields the codec
touches. -/
structure ResourceAllocationInfo where
  limit : Option Int
  reservation : Option Int
  shares : Option SharesInfo
  deriving DecidableEq

/-- `types.ToolsConfigInfo`, restricted to the fields the codec touches. -/
structure ToolsConfigInfo where
  syncTimeWithHost : Option Bool
  syncTimeWithHostAllowed : Option Bool
  toolsUpgradePolicy : String
  afterPowerOn : Option Bool
  afterResume : Option Bool
  beforeGuestStandby : Option Bool
  beforeGuestShutdown : Option Bool
  beforeGuestReboot : Option Bool
  deriving DecidableEq

/-- `types.VirtualMachineFlagInfo`, restricted to the fields the codec
touches. -/
structure VirtualMachineFlagInfo where
  diskUuidEnabled : Option Bool
  virtualExecUsage : String
  virtualMmuUsage : String
  enableLogging : Option Bool
  vbsEnabled : Option Bool
  vvtdEnabled : Option Bool
  deriving DecidableEq

/-- `types.VirtualMachineBootOptions`, restricted to the fields the codec
touches. -/
structure VirtualMachineBootOptions where
  bootDelay : Int
  bootRetryEnabled : Option Bool
  bootRetryDelay : Int
  efiSecureBootEnabled : Option Bool
  deriving DecidableEq

/-- `types.LatencySensitivity`: only the level is used. -/
structure LatencySensitivity where
  level : String
  deriving DecidableEq

/-- `types.OptionValue`: one extra-config key/value pair (the `AnyType`
value is always a string at these call sites). -/
structure OptionValue where
  key : String
  value : String
  deriving DecidableEq

/-- `types.VAppPropertySpec`: an array-update operation (always `edit` at
these call sites) plus the property payload.  `UserConfigurable` is `*bool`
in Go but is always set by the code that builds these specs. -/
structure VAppPropertySpec where
  operation : String
  key : Int
  id : String
  value : String
  userConfigurable : Bool
  deriving DecidableEq

/-- `types.VmConfigSpec`, restricted to the property edits. -/
structure VmConfigSpec where
  property : List VAppPropertySpec
  deriving DecidableEq

/-- Modelled from the spec: `spbm.PolicySpecByID` (helper package not in the
source tree) builds a one-element profile-spec list referencing the given
storage policy id (spec section 3: MachineConfig carries a storage policy
reference). -/
structure VirtualMachineProfileSpec where
  profileId : String
  deriving DecidableEq

/-- `types.VirtualMachineConfigSpec`, restricted to the fields the codec
writes (the Go `Annotation` field is named `annotationText` here). -/
structure VirtualMachineConfigSpec where
  name : String
  guestId : String
  alternateGuestName : String
  annotationText : String
  tools : ToolsConfigInfo
  flags : VirtualMachineFlagInfo
  numCPUs : Int
  numCoresPerSocket : Int
  memoryMB : Int
  memoryHotAddEnabled : Option Bool
  cpuHotAddEnabled : Option Bool
  cpuHotRemoveEnabled : Option Bool
  cpuAllocation : ResourceAllocationInfo
  memoryAllocation : ResourceAllocationInfo
  memoryReservationLockedToMax : Option Bool
  extraConfig : List OptionValue
  swapPlacement : String
  bootOptions : VirtualMachineBootOptions
  vAppConfig : Option VmConfigSpec
  firmware : String
  nestedHVEnabled : Option Bool
  vpmcEnabled : Option Bool
  latencySensitivity : LatencySensitivity
  vmProfile : List VirtualMachineProfileSpec
  version : String
  deriving DecidableEq

/-- `types.VirtualHardware`, restricted to the fields the flattener reads. -/
structure VirtualHardware where
  numCPU : Int
  numCoresPerSocket : Int
  memoryMB : Int
  deriving DecidableEq

/-- `types.VAppPropertyInfo`: a property declared on the live object.
`UserConfigurable` is `*bool` in Go and is dereferenced unconditionally by
both the expander and the flattener, so it is modelled as `Bool`. -/
structure VAppPropertyInfo where
  key : Int
  id : String
  value : String
  defaultValue : String
  userConfigurable : Bool
  deriving DecidableEq

/-- `types.VmConfigInfo`, restricted to the fields the code touches. -/
structure VmConfigInfo where
  property : List VAppPropertyInfo
  ovfEnvironmentTransport : List String
  deriving DecidableEq

/-- `types.VirtualMachineConfigInfo`, restricted to the fields the
flattener reads.  The substructure pointers that a live object always
populates (`Tools`, `CpuAllocation`, `MemoryAllocation`, `BootOptions`) are
modelled as plain values, exactly as the flattener dereferences them;
`LatencySensitivity` and `VAppConfig` keep their nil case because the
flattener checks it. -/
structure VirtualMachineConfigInfo where
  name : String
  guestId : String
  alternateGuestName : String
  annotationText : String
  hardware : VirtualHardware
  memoryHotAddEnabled : Option Bool
  memoryReservationLockedToMax : Option Bool
  cpuHotAddEnabled : Option Bool
  cpuHotRemoveEnabled : Option Bool
  swapPlacement : String
  firmware : String
  nestedHVEnabled : Option Bool
  vpmcEnabled : Option Bool
  changeVersion : String
  uuid : String
  version : String
  tools : ToolsConfigInfo
  flags : VirtualMachineFlagInfo
  cpuAllocation : ResourceAllocationInfo
  memoryAllocation : ResourceAllocationInfo
  extraConfig : List OptionValue
  vAppConfig : Option VmConfigInfo
  latencySensitivity : Option LatencySensitivity
  bootOptions : VirtualMachineBootOptions
  deriving DecidableEq

/-- One flattened Terraform record for the virtual-machine resource: one
field per schema key that the modelled code reads or writes, at the schema
type of the key.  The schema key `annotation` is the field `annotationText`,
and `ovf_deploy.0.enable_hidden_properties` is `enable_hidden_properties`. -/
structure VMRecord where
  name : String
  num_cpus : Int
  num_cores_per_socket : Int
  cpu_hot_add_enabled : Bool
  cpu_hot_remove_enabled : Bool
  nested_hv_enabled : Bool
  cpu_performance_counters_enabled : Bool
  memory : Int
  memory_reservation : Int
  memory_reservation_locked_to_max : Bool
  memory_hot_add_enabled : Bool
  swap_placement_policy : String
  annotationText : String
  guest_id : String
  alternate_guest_name : String
  firmware : String
  extra_config : List (String × String)
  extra_config_reboot_required : Bool
  vapp : Option (List (String × String))
  vapp_transport : List String
  change_version : String
  uuid : String
  storage_policy_id : String
  hardware_version : Int
  boot_delay : Int
  efi_secure_boot_enabled : Bool
  boot_retry_delay : Int
  boot_retry_enabled : Bool
  enable_disk_uuid : Bool
  vbs_enabled : Bool
  vvtd_enabled : Bool
  hv_mode : String
  ept_rvi_mode : String
  enable_logging : Bool
  sync_time_with_host : Bool
  sync_time_with_host_periodically : Bool
  tools_upgrade_policy : String
  run_tools_scripts_after_power_on : Bool
  run_tools_scripts_after_resume : Bool
  run_tools_scripts_before_guest_reboot : Bool
  run_tools_scripts_before_guest_shutdown : Bool
  run_tools_scripts_before_guest_standby : Bool
  latency_sensitivity : String
  cpu_share_level : String
  cpu_share_count : Int
  cpu_limit : Int
  cpu_reservation : Int
  memory_share_level : String
  memory_share_count : Int
  memory_limit : Int
  reboot_required : Bool
  enable_hidden_properties : Bool
  deriving DecidableEq

/-- A `schema.ResourceData` for the virtual-machine resource: the prior
state, the current state, and the resource id. -/
structure VMData where
  old : VMRecord
  cur : VMRecord
  id : String
  deriving DecidableEq

/-- The record produced by `resourceVSphereVirtualMachine().Data(&terraform.InstanceState{})`:
every key at its schema default (zero value when the schema declares no
default). -/
def freshVMRecord : VMRecord where
  name := ""
  num_cpus := 1
  num_cores_per_socket := 1
  cpu_hot_add_enabled := false
  cpu_hot_remove_enabled := false
  nested_hv_enabled := false
  cpu_performance_counters_enabled := false
  memory := 1024
  memory_reservation := 0
  memory_reservation_locked_to_max := false
  memory_hot_add_enabled := false
  swap_placement_policy := "inherit"
  annotationText := ""
  guest_id := ""
  alternate_guest_name := ""
  firmware := "bios"
  extra_config := []
  extra_config_reboot_required := true
  vapp := none
  vapp_transport := []
  change_version := ""
  uuid := ""
  storage_policy_id := ""
  hardware_version := 0
  boot_delay := 0
  efi_secure_boot_enabled := false
  boot_retry_delay := 10000
  boot_retry_enabled := false
  enable_disk_uuid := false
  vbs_enabled := false
  vvtd_enabled := false
  hv_mode := ""
  ept_rvi_mode := ""
  enable_logging := false
  sync_time_with_host := true
  sync_time_with_host_periodically := false
  tools_upgrade_policy := "manual"
  run_tools_scripts_after_power_on := true
  run_tools_scripts_after_resume := true
  run_tools_scripts_before_guest_reboot := false
  run_tools_scripts_before_guest_shutdown := true
  run_tools_scripts_before_guest_standby := true
  latency_sensitivity := "normal"
  cpu_share_level := "normal"
  cpu_share_count := 0
  cpu_limit := -1
  cpu_reservation := 0
  memory_share_level := "normal"
  memory_share_count := 0
  memory_limit := -1
  reboot_required := false
  enable_hidden_properties := false

/-- `d.Set` on a `*bool` source: a present pointer stores its value, a nil
pointer leaves the recorded field unset (spec section 4.1: a field whose
backing object is absent must be left unset rather than zero-valued; this
is also the behaviour of the repository's `structure.SetBoolPtr` helper). -/
def setOptBool (cur : Bool) : Option Bool → Bool
  | some b => b
  | none => cur

/-- `structure.SetInt64Ptr`: same convention for `*int64` sources. -/
def setOptInt (cur : Int) : Option Int → Int
  | some n => n
  | none => cur

/-- `expandVirtualMachineBootOptions`: reads the boot keys from the current
record; the EFI secure-boot flag is gated on the remote being strictly newer
than 6.5 (the source's `version.Newer` check). -/
def expandVirtualMachineBootOptions (d : VMData) (v : VSphereVersion) :
    VirtualMachineBootOptions where
  bootDelay := d.cur.boot_delay
  bootRetryEnabled := some d.cur.boot_retry_enabled
  bootRetryDelay := d.cur.boot_retry_delay
  efiSecureBootEnabled :=
    if v.newer ⟨6, 5, 0⟩ then some d.cur.efi_secure_boot_enabled else none

/-- `flattenVirtualMachineBootOptions`: writes the boot keys into the
record (`SetBoolPtr` leaves a key untouched when the source pointer is
nil). -/
def flattenVirtualMachineBootOptions (r : VMRecord)
    (obj : VirtualMachineBootOptions) : VMRecord :=
  { r with
    boot_delay := obj.bootDelay
    efi_secure_boot_enabled :=
      setOptBool r.efi_secure_boot_enabled obj.efiSecureBootEnabled
    boot_retry_enabled := setOptBool r.boot_retry_enabled obj.bootRetryEnabled
    boot_retry_delay := obj.bootRetryDelay }

/-- `expandVirtualMachineFlagInfo`: the VBS and VT-d flags are gated on
remote version at least 6.7.  `structure.GetBool` always yields a present
pointer (an unspecified key reads as `false`). -/
def expandVirtualMachineFlagInfo (d : VMData) (v : VSphereVersion) :
    VirtualMachineFlagInfo :=
  let obj : VirtualMachineFlagInfo :=
    { diskUuidEnabled := some d.cur.enable_disk_uuid
      virtualExecUsage := d.cur.hv_mode
      virtualMmuUsage := d.cur.ept_rvi_mode
      enableLogging := some d.cur.enable_logging
      vbsEnabled := none
      vvtdEnabled := none }
  if v.atLeast ⟨6, 7, 0⟩ then
    { obj with
      vbsEnabled := some d.cur.vbs_enabled
      vvtdEnabled := some d.cur.vvtd_enabled }
  else obj

/-- `flattenVirtualMachineFlagInfo`: the VBS and VT-d keys are only read
back when the remote is at least 6.7. -/
def flattenVirtualMachineFlagInfo (r : VMRecord)
    (obj : VirtualMachineFlagInfo) (v : VSphereVersion) : VMRecord :=
  let r :=
    { r with
      enable_disk_uuid := setOptBool r.enable_disk_uuid obj.diskUuidEnabled
      hv_mode := obj.virtualExecUsage
      ept_rvi_mode := obj.virtualMmuUsage
      enable_logging := setOptBool r.enable_logging obj.enableLogging }
  if v.atLeast ⟨6, 7, 0⟩ then
    { r with
      vbs_enabled := setOptBool r.vbs_enabled obj.vbsEnabled
      vvtd_enabled := setOptBool r.vvtd_enabled obj.vvtdEnabled }
  else r

/-- `expandToolsConfigInfo`: below remote version 7.0.1 the host-sync flag
feeds `SyncTimeWithHost` and the periodic-sync field is left out of the
payload entirely; from 7.0.1 on, `SyncTimeWithHostAllowed` carries the
host-sync flag and `SyncTimeWithHost` carries the periodic flag. -/
def expandToolsConfigInfo (d : VMData) (v : VSphereVersion) : ToolsConfigInfo :=
  let obj : ToolsConfigInfo :=
    { syncTimeWithHost := some d.cur.sync_time_with_host
      syncTimeWithHostAllowed := none
      toolsUpgradePolicy := d.cur.tools_upgrade_policy
      afterPowerOn := some d.cur.run_tools_scripts_after_power_on
      afterResume := some d.cur.run_tools_scripts_after_resume
      beforeGuestStandby := some d.cur.run_tools_scripts_before_guest_standby
      beforeGuestShutdown := some d.cur.run_tools_scripts_before_guest_shutdown
      beforeGuestReboot := some d.cur.run_tools_scripts_before_guest_reboot }
  if v.atLeast ⟨7, 0, 1⟩ then
    { obj with
      syncTimeWithHostAllowed := some d.cur.sync_time_with_host
      syncTimeWithHost := some d.cur.sync_time_with_host_periodically }
  else obj

/-- `flattenToolsConfigInfo`: mirrors the expander's gate; below 7.0.1 the
periodic-sync key is never read from the remote object. -/
def flattenToolsConfigInfo (r : VMRecord) (obj : ToolsConfigInfo)
    (v : VSphereVersion) : VMRecord :=
  let r :=
    { r with
      sync_time_with_host := setOptBool r.sync_time_with_host obj.syncTimeWithHost
      tools_upgrade_policy := obj.toolsUpgradePolicy
      run_tools_scripts_after_power_on :=
        setOptBool r.run_tools_scripts_after_power_on obj.afterPowerOn
      run_tools_scripts_after_resume :=
        setOptBool r.run_tools_scripts_after_resume obj.afterResume
      run_tools_scripts_before_guest_standby :=
        setOptBool r.run_tools_scripts_before_guest_standby obj.beforeGuestStandby
      run_tools_scripts_before_guest_shutdown :=
        setOptBool r.run_tools_scripts_before_guest_shutdown obj.beforeGuestShutdown
      run_tools_scripts_before_guest_reboot :=
        setOptBool r.run_tools_scripts_before_guest_reboot obj.beforeGuestReboot }
  if v.atLeast ⟨7, 0, 1⟩ then
    { r with
      sync_time_with_host :=
        setOptBool r.sync_time_with_host obj.syncTimeWithHostAllowed
      sync_time_with_host_periodically :=
        setOptBool r.sync_time_with_host_periodically obj.syncTimeWithHost }
  else r

/-- The two resource-allocation kinds; the Go code selects the schema keys
by formatting the kind (`cpu` or `memory`) into the key names. -/
inductive AllocationKind where
  | cpu
  | memory
  deriving DecidableEq

/-- `expandVirtualMachineResourceAllocation`: `GetInt64PtrEmptyZero` always
yields a present pointer, and the shares object is always built. -/
def expandVirtualMachineResourceAllocation (d : VMData) (k : AllocationKind) :
    ResourceAllocationInfo :=
  match k with
  | .cpu =>
    { limit := some d.cur.cpu_limit
      reservation := some d.cur.cpu_reservation
      shares := some { level := d.cur.cpu_share_level, shares := d.cur.cpu_share_count } }
  | .memory =>
    { limit := some d.cur.memory_limit
      reservation := some d.cur.memory_reservation
      shares := some { level := d.cur.memory_share_level, shares := d.cur.memory_share_count } }

/-- `flattenVirtualMachineResourceAllocation`: the share keys are only
written when the shares object is present. -/
def flattenVirtualMachineResourceAllocation (r : VMRecord)
    (obj : ResourceAllocationInfo) (k : AllocationKind) : VMRecord :=
  match k with
  | .cpu =>
    let r := { r with
      cpu_limit := setOptInt r.cpu_limit obj.limit
      cpu_reservation := setOptInt r.cpu_reservation obj.reservation }
    match obj.shares with
    | some s => { r with cpu_share_level := s.level, cpu_share_count := s.shares }
    | none => r
  | .memory =>
    let r := { r with
      memory_limit := setOptInt r.memory_limit obj.limit
      memory_reservation := setOptInt r.memory_reservation obj.reservation }
    match obj.shares with
    | some s => { r with memory_share_level := s.level, memory_share_count := s.shares }
    | none => r

/-- `expandLatencySensitivity`. -/
def expandLatencySensitivity (d : VMData) : LatencySensitivity where
  level := d.cur.latency_sensitivity

/-- `flattenLatencySensitivity`: a nil object is skipped with a warning. -/
def flattenLatencySensitivity (r : VMRecord) (obj : Option LatencySensitivity) :
    VMRecord :=
  match obj with
  | none => r
  | some o => { r with latency_sensitivity := o.level }

/-- `expandExtraConfig`: with no pending change the function returns a nil
option list (a no-op for the update); otherwise it emits removals (an empty
value for each key that disappeared) followed by changed and brand-new
key/value pairs. -/
def expandExtraConfig (d : VMData) : List OptionValue :=
  if d.old.extra_config = d.cur.extra_config then []
  else
    let old := d.old.extra_config
    let nw := d.cur.extra_config
    let removed : List OptionValue :=
      (old.filter (fun kv => ¬ nw.any (fun kv2 => kv.1 = kv2.1))).map
        (fun kv => { key := kv.1, value := "" })
    let addedOrChanged : List OptionValue :=
      nw.filterMap (fun kv =>
        match old.find? (fun kv2 => kv.1 = kv2.1) with
        | some kv2 => if kv.2 ≠ kv2.2 then some { key := kv.1, value := kv.2 } else none
        | none => some { key := kv.1, value := kv.2 })
    removed ++ addedOrChanged

/-- Go-map assignment on an association list: replace the entry if the key
is present, append it otherwise. -/
def setKey : List (String × String) → String → String → List (String × String)
  | [], k, v => [(k, v)]
  | (k', v') :: rest, k, v =>
    if k' = k then (k, v) :: rest else (k', v') :: setKey rest k v

/-- `flattenExtraConfig`: an empty option list is a no-op; otherwise only
the keys already present in the recorded `extra_config` map are written
back (so keys maintained out-of-band by the remote system never enter
recorded state). -/
def flattenExtraConfig (r : VMRecord) (opts : List OptionValue) : VMRecord :=
  if opts.length < 1 then r
  else
    let ec := opts.foldl (fun acc ov =>
      if r.extra_config.any (fun kv => ov.key = kv.1) then setKey acc ov.key ov.value
      else acc) []
    { r with extra_config := ec }

/-- `getMemoryReservationLockedToMax`: `false` when reservation differs
from memory, `true` when they agree and the lock flag is set, absent
otherwise. -/
def getMemoryReservationLockedToMax (d : VMData) : Option Bool :=
  if d.cur.memory ≠ d.cur.memory_reservation then some false
  else if d.cur.memory = d.cur.memory_reservation ∧
      d.cur.memory_reservation_locked_to_max then some true
  else none

/-- Flags a required restart in the current record (`d.Set("reboot_required", true)`). -/
def setRebootRequired (d : VMData) : VMData :=
  { d with cur := { d.cur with reboot_required := true } }

/-- `expandCPUCountConfig`: returns the new CPU count; a growth with the
pre-change hot-add flag off, or a shrink with the pre-change hot-remove
flag off, flags a restart. -/
def expandCPUCountConfig (d : VMData) : Int × VMData :=
  let oldCPUCount := d.old.num_cpus
  let newCPUCount := d.cur.num_cpus
  let d' :=
    if oldCPUCount < newCPUCount then
      if d.old.cpu_hot_add_enabled then d else setRebootRequired d
    else if newCPUCount < oldCPUCount then
      if d.old.cpu_hot_remove_enabled then d else setRebootRequired d
    else d
  (newCPUCount, d')

/-- `expandMemorySizeConfig`: returns the new memory size; a growth with
the pre-change hot-add flag off flags a restart, and a shrink always
does. -/
def expandMemorySizeConfig (d : VMData) : Int × VMData :=
  let oldMem := d.old.memory
  let newMem := d.cur.memory
  let d' :=
    if oldMem < newMem then
      if d.old.memory_hot_add_enabled then d else setRebootRequired d
    else if newMem < oldMem then setRebootRequired d
    else d
  (newMem, d')

/-- `expandVirtualMachineProfileSpec`: a non-empty storage policy id turns
into a profile-spec list, an empty one into nil. -/
def expandVirtualMachineProfileSpec (d : VMData) : List VirtualMachineProfileSpec :=
  if d.cur.storage_policy_id ≠ "" then [{ profileId := d.cur.storage_policy_id }]
  else []

/-- Modelled from the spec: `virtualmachine.GetHardwareVersionID` (helper
package not in the source tree) renders the schema's integer hardware
version in the remote `vmx-N` form; the unset value zero renders as the
empty string, leaving the creation-only field absent. -/
def getHardwareVersionID (n : Int) : String :=
  if n = 0 then "" else "vmx-" ++ toString n

/-- Modelled from the spec: `virtualmachine.GetHardwareVersionNumber`
(helper package not in the source tree) parses the remote `vmx-N` form back
to the integer hardware version. -/
def getHardwareVersionNumber (s : String) : Int :=
  if s = "" then 0 else ((s.drop 4).toNat?.getD 0 : Nat)

/-- Looks a key up in a vApp property map. -/
def lookupKey (m : List (String × String)) (k : String) : Option String :=
  (m.find? (fun kv => kv.1 = k)).map (fun kv => kv.2)

/-- Go-map `delete` on an association list (keys are unique in a Go map). -/
def removeKey (m : List (String × String)) (k : String) : List (String × String) :=
  m.filter (fun kv => kv.1 ≠ k)

/-- The placeholder default the expander substitutes for an empty declared
default value. -/
def vappDefault (p : VAppPropertyInfo) : String :=
  if p.defaultValue = "" then " " else p.defaultValue

/-- The property loop of `expandVAppConfig`: walks the live object's
declared properties, consuming configured overrides from the map.  With the
hidden-properties mode off, a configured override of a non-user-configurable
property is an error; either way the walk returns the edit specs plus the
unconsumed remainder of the map. -/
def expandVAppPropsLoop (hidden : Bool) :
    List VAppPropertyInfo → List (String × String) → List VAppPropertySpec →
    Except String (List VAppPropertySpec × List (String × String))
  | [], m, acc => .ok (acc, m)
  | p :: rest, m, acc =>
    if hidden then
      let value := (lookupKey m p.id).getD (vappDefault p)
      let m' := if (lookupKey m p.id).isSome then removeKey m p.id else m
      expandVAppPropsLoop hidden rest m'
        (acc ++ [{ operation := "edit", key := p.key, id := p.id, value := value,
                   userConfigurable := true }])
    else if p.userConfigurable then
      let value := (lookupKey m p.id).getD (vappDefault p)
      let m' := if (lookupKey m p.id).isSome then removeKey m p.id else m
      expandVAppPropsLoop hidden rest m'
        (acc ++ [{ operation := "edit", key := p.key, id := p.id, value := value,
                   userConfigurable := p.userConfigurable }])
    else if (lookupKey m p.id).isSome then
      .error ("vApp property with userConfigurable=false specified in vapp.properties: "
        ++ String.intercalate ", " (m.map (fun kv => kv.1)))
    else expandVAppPropsLoop hidden rest m acc

/-- `expandVAppConfig`: a no-op without a pending `vapp` change; on a brand
new machine (empty id) configured properties are an error; a machine whose
live object lacks a vApp configuration is an error; otherwise the property
loop runs and any identifiers left unconsumed (absent from the live
object's declared set) are a referential error.  The `remote` argument is
the live object's vApp configuration as read back through the
`virtualmachine` helper (modelled as an input; spec section 6, remote
object client).  The restart side effect on a `vapp` change is modelled in
the change-classifier helpers, not here. -/
def expandVAppConfig (d : VMData) (remote : Option VmConfigInfo) :
    Except String (Option VmConfigSpec) :=
  if d.old.vapp = d.cur.vapp then .ok none
  else
    let newMap := d.cur.vapp.getD []
    if d.id = "" then
      if newMap.length > 0 then
        .error "vApp properties can only be set on cloned virtual machines"
      else .ok none
    else
      match remote with
      | none =>
        .error "this VM lacks a vApp configuration and cannot have vApp properties set on it"
      | some cfg =>
        match expandVAppPropsLoop d.cur.enable_hidden_properties cfg.property newMap [] with
        | .error e => .error e
        | .ok (props, leftover) =>
          if leftover.length > 0 then
            .error ("unsupported vApp properties in vapp.properties: "
              ++ String.intercalate ", " (leftover.map (fun kv => kv.1)))
          else .ok (some { property := props })

/-- `flattenVAppConfig`: records the transport list, then records the
user-configurable properties whose value differs from the declared default
(only when at least one such property exists, to avoid a spurious diff). -/
def flattenVAppConfig (r : VMRecord) (config : Option VmConfigInfo) : VMRecord :=
  match config with
  | none => { r with vapp_transport := [] }
  | some cfg =>
    let r := { r with vapp_transport := cfg.ovfEnvironmentTransport }
    if cfg.property.length < 1 then r
    else
      let vac := cfg.property.foldl (fun acc v =>
        if v.userConfigurable then
          if v.value ≠ "" ∧ v.value ≠ v.defaultValue then setKey acc v.id v.value
          else acc
        else acc) []
      if vac.length > 0 then { r with vapp := some vac } else r

/-- `expandVirtualMachineConfigSpec`: builds the full config spec from the
current record; the only error source is the vApp expansion.  The
`reboot_required` side effects of the `getWithRestart` reads do not feed
back into any expanded value, so they are modelled in the two count
helpers (whose value components are used here) and omitted for the other
reads. -/
def expandVirtualMachineConfigSpec (d : VMData) (v : VSphereVersion)
    (remote : Option VmConfigInfo) : Except String VirtualMachineConfigSpec :=
  match expandVAppConfig d remote with
  | .error e => .error e
  | .ok vappConfig =>
    .ok
      { name := d.cur.name
        guestId := d.cur.guest_id
        alternateGuestName := d.cur.alternate_guest_name
        annotationText := d.cur.annotationText
        tools := expandToolsConfigInfo d v
        flags := expandVirtualMachineFlagInfo d v
        numCPUs := (expandCPUCountConfig d).1
        numCoresPerSocket := d.cur.num_cores_per_socket
        memoryMB := (expandMemorySizeConfig d).1
        memoryHotAddEnabled := some d.cur.memory_hot_add_enabled
        cpuHotAddEnabled := some d.cur.cpu_hot_add_enabled
        cpuHotRemoveEnabled := some d.cur.cpu_hot_remove_enabled
        cpuAllocation := expandVirtualMachineResourceAllocation d .cpu
        memoryAllocation := expandVirtualMachineResourceAllocation d .memory
        memoryReservationLockedToMax := getMemoryReservationLockedToMax d
        extraConfig := expandExtraConfig d
        swapPlacement := d.cur.swap_placement_policy
        bootOptions := expandVirtualMachineBootOptions d v
        vAppConfig := vappConfig
        firmware := d.cur.firmware
        nestedHVEnabled := some d.cur.nested_hv_enabled
        vpmcEnabled := some d.cur.cpu_performance_counters_enabled
        latencySensitivity := expandLatencySensitivity d
        vmProfile := expandVirtualMachineProfileSpec d
        version := getHardwareVersionID d.cur.hardware_version }

/-- `flattenVirtualMachineConfigInfo`: writes the live object's reported
configuration into the record; the flatten counterpart to
`expandVirtualMachineConfigSpec`.  Note that the storage policy id is not
among the keys this function writes. -/
def flattenVirtualMachineConfigInfo (r : VMRecord)
    (obj : VirtualMachineConfigInfo) (v : VSphereVersion) : VMRecord :=
  let r :=
    { r with
      name := obj.name
      guest_id := obj.guestId
      alternate_guest_name := obj.alternateGuestName
      annotationText := obj.annotationText
      num_cpus := obj.hardware.numCPU
      num_cores_per_socket := obj.hardware.numCoresPerSocket
      memory := obj.hardware.memoryMB
      memory_hot_add_enabled :=
        setOptBool r.memory_hot_add_enabled obj.memoryHotAddEnabled
      memory_reservation_locked_to_max :=
        obj.memoryReservationLockedToMax.getD false
      cpu_hot_add_enabled := setOptBool r.cpu_hot_add_enabled obj.cpuHotAddEnabled
      cpu_hot_remove_enabled :=
        setOptBool r.cpu_hot_remove_enabled obj.cpuHotRemoveEnabled
      swap_placement_policy := obj.swapPlacement
      firmware := obj.firmware
      nested_hv_enabled := setOptBool r.nested_hv_enabled obj.nestedHVEnabled
      cpu_performance_counters_enabled :=
        setOptBool r.cpu_performance_counters_enabled obj.vpmcEnabled
      change_version := obj.changeVersion
      uuid := obj.uuid
      hardware_version := getHardwareVersionNumber obj.version }
  let r := flattenToolsConfigInfo r obj.tools v
  let r := flattenVirtualMachineFlagInfo r obj.flags v
  let r := flattenVirtualMachineResourceAllocation r obj.cpuAllocation .cpu
  let r := flattenVirtualMachineResourceAllocation r obj.memoryAllocation .memory
  let r := flattenExtraConfig r obj.extraConfig
  let r := flattenVAppConfig r obj.vAppConfig
  let r := flattenLatencySensitivity r obj.latencySensitivity
  flattenVirtualMachineBootOptions r obj.bootOptions

/-- `expandVirtualMachineConfigSpecChanged`: flattens the live config info
into a fake record built from the resource schema (with the same id), reads
the state back in so prior and current coincide, expands both records
through the same path, compares the resulting specs structurally
(`reflect.DeepEqual`), and returns the new spec with the creation-only
hardware-version field cleared plus the comparison outcome. -/
def expandVirtualMachineConfigSpecChanged (d : VMData) (v : VSphereVersion)
    (remote : Option VmConfigInfo) (info : VirtualMachineConfigInfo) :
    Except String (VirtualMachineConfigSpec × Bool) :=
  let oldRecord := flattenVirtualMachineConfigInfo freshVMRecord info v
  let oldData : VMData := { old := oldRecord, cur := oldRecord, id := d.id }
  match expandVirtualMachineConfigSpec oldData v remote with
  | .error e => .error e
  | .ok oldSpec =>
    match expandVirtualMachineConfigSpec d v remote with
    | .error e => .error e
    | .ok newSpec =>
      let isVMConfigSpecChanged := if oldSpec = newSpec then false else true
      .ok ({ newSpec with version := "" }, isVMConfigSpecChanged)

/-- Modelled from the spec: the Config Diff Engine treats the expanded spec
shape and the live config-info shape as the same MachineConfig value
represented two ways (spec sections 3 and 4.4); `toInfo` is that
identification, carrying the info-only fields (change version and UUID) as
extra inputs.  A spec-side vApp payload carries no declared defaults or
transports, so those components are empty in the image. -/
def VirtualMachineConfigSpec.toInfo (s : VirtualMachineConfigSpec)
    (cv u : String) : VirtualMachineConfigInfo where
  name := s.name
  guestId := s.guestId
  alternateGuestName := s.alternateGuestName
  annotationText := s.annotationText
  hardware :=
    { numCPU := s.numCPUs
      numCoresPerSocket := s.numCoresPerSocket
      memoryMB := s.memoryMB }
  memoryHotAddEnabled := s.memoryHotAddEnabled
  memoryReservationLockedToMax := s.memoryReservationLockedToMax
  cpuHotAddEnabled := s.cpuHotAddEnabled
  cpuHotRemoveEnabled := s.cpuHotRemoveEnabled
  swapPlacement := s.swapPlacement
  firmware := s.firmware
  nestedHVEnabled := s.nestedHVEnabled
  vpmcEnabled := s.vpmcEnabled
  changeVersion := cv
  uuid := u
  version := s.version
  tools := s.tools
  flags := s.flags
  cpuAllocation := s.cpuAllocation
  memoryAllocation := s.memoryAllocation
  extraConfig := s.extraConfig
  vAppConfig := s.vAppConfig.map (fun c =>
    { property := c.property.map (fun p =>
        { key := p.key, id := p.id, value := p.value, defaultValue := "",
          userConfigurable := p.userConfigurable })
      ovfEnvironmentTransport := [] })
  latencySensitivity := some s.latencySensitivity
  bootOptions := s.bootOptions

/-- A parsed IP address (`net.ParseIP` result), classified the way the
selector classifies it (`ip.To4() != nil`): 32-bit IPv4 or 128-bit IPv6
value.  Textual addresses are modelled structurally; parsing and printing
are external `net` library functions. -/
inductive IpAddr where
  | v4 (a : Nat)
  | v6 (a : Nat)
  deriving DecidableEq

/-- Whether the selector classifies the address as IPv4. -/
def IpAddr.isV4 : IpAddr → Bool
  | .v4 _ => true
  | .v6 _ => false

/-- `ip.Mask(mask).Equal(gw.Mask(mask))` with `mask = CIDRMask(plen, bits)`:
equality of the network parts.  A prefix length beyond the family's bit
width makes `CIDRMask` return nil and both masked addresses nil, which
`Equal` treats as equal; masking across families compares unequal. -/
def IpAddr.maskedEq (ip gw : IpAddr) (plen : Nat) : Bool :=
  match ip, gw with
  | .v4 a, .v4 g =>
    if plen ≤ 32 then decide (a >>> (32 - plen) = g >>> (32 - plen)) else true
  | .v6 a, .v6 g =>
    if plen ≤ 128 then decide (a >>> (128 - plen) = g >>> (128 - plen)) else true
  | _, _ => false

/-- `types.NetIpConfigInfoIpAddress`, restricted to the fields the selector
reads. -/
structure GuestIpAddress where
  ipAddress : IpAddr
  prefixLength : Nat
  deriving DecidableEq

/-- One entry of `IpRouteConfig.IpRoute`: the route's network string and
its gateway address (`none` models an unparsable gateway string, which
`net.ParseIP` turns into nil). -/
structure GuestIpRoute where
  network : String
  gateway : Option IpAddr
  deriving DecidableEq

/-- One entry of `GuestInfo.IpStack`. -/
structure GuestIpStack where
  ipRouteConfig : Option (List GuestIpRoute)
  deriving DecidableEq

/-- One entry of `GuestInfo.Net`. -/
structure GuestNicInfo where
  deviceConfigId : Int
  macAddress : String
  ipConfig : Option (List GuestIpAddress)
  deriving DecidableEq

/-- `types.GuestInfo`, restricted to the fields the selector reads; the
legacy flat `IpAddress` string is `none` when empty. -/
structure GuestInfo where
  ipStack : List GuestIpStack
  net : List GuestNicInfo
  ipAddress : Option IpAddr
  deriving DecidableEq

/-- The guest-facing keys of the resource record: the provisioning address,
the full address list, and the SSH connection-info host. -/
structure GuestState where
  default_ip_address : Option IpAddr
  guest_ip_addresses : List IpAddr
  connHost : Option IpAddr
  deriving DecidableEq

/-- The gateway scan of `buildAndSelectGuestIPs`: each default IPv4 route
(destination `0.0.0.0`) overwrites the IPv4 gateway, each default IPv6
route (destination `::`) overwrites the IPv6 gateway. -/
def gatherGateways (ipStacks : List GuestIpStack) : Option IpAddr × Option IpAddr :=
  ipStacks.foldl (fun acc s =>
    match s.ipRouteConfig with
    | none => acc
    | some routes =>
      routes.foldl (fun acc2 r =>
        if r.network = "0.0.0.0" then (r.gateway, acc2.2)
        else if r.network = "::" then (acc2.1, r.gateway)
        else acc2) acc) (none, none)

/-- The per-interface address loop: collects the interface's IPv4 and IPv6
addresses and records the first address of each family whose network equals
the family gateway's network as that family's primary candidate (a
candidate, once set, is never overwritten). -/
def scanNicAddrs (v4gw v6gw : Option IpAddr) :
    List GuestIpAddress → List IpAddr × List IpAddr × Option IpAddr × Option IpAddr →
    List IpAddr × List IpAddr × Option IpAddr × Option IpAddr
  | [], acc => acc
  | a :: rest, (l4, l6, p4, p6) =>
    match a.ipAddress with
    | .v4 _ =>
      let p4' :=
        match v4gw, p4 with
        | some g, none =>
          if a.ipAddress.maskedEq g a.prefixLength then some a.ipAddress else none
        | _, _ => p4
      scanNicAddrs v4gw v6gw rest (l4 ++ [a.ipAddress], l6, p4', p6)
    | .v6 _ =>
      let p6' :=
        match v6gw, p6 with
        | some g, none =>
          if a.ipAddress.maskedEq g a.prefixLength then some a.ipAddress else none
        | _, _ => p6
      scanNicAddrs v4gw v6gw rest (l4, l6 ++ [a.ipAddress], p4, p6')

/-- Go-map assignment for the per-device address maps. -/
def setEntry : List (String × List IpAddr) → String → List IpAddr →
    List (String × List IpAddr)
  | [], k, v => [(k, v)]
  | (k', v') :: rest, k, v =>
    if k' = k then (k, v) :: rest else (k', v') :: setEntry rest k v

/-- Go-map lookup for the per-device address maps (a missing key reads as
the empty list). -/
def lookupEntry (m : List (String × List IpAddr)) (k : String) : List IpAddr :=
  ((m.find? (fun e => e.1 = k)).map (fun e => e.2)).getD []

/-- The accumulator of the interface scan: device order, the per-device
address maps, and the two primary candidates. -/
structure GuestScanAcc where
  macs : List String
  v4m : List (String × List IpAddr)
  v6m : List (String × List IpAddr)
  v4primary : Option IpAddr
  v6primary : Option IpAddr

/-- The interface loop of `buildAndSelectGuestIPs`: interfaces without an
`IpConfig` are skipped; for the rest, the device's MAC is appended to the
device order, the family maps are assigned the device's fresh address
lists, and the primary candidates are threaded through. -/
def scanGuestNets (v4gw v6gw : Option IpAddr) :
    List GuestNicInfo → GuestScanAcc → GuestScanAcc
  | [], acc => acc
  | n :: rest, acc =>
    match n.ipConfig with
    | none => scanGuestNets v4gw v6gw rest acc
    | some addrList =>
      let res := scanNicAddrs v4gw v6gw addrList ([], [], acc.v4primary, acc.v6primary)
      scanGuestNets v4gw v6gw rest
        { macs := acc.macs ++ [n.macAddress]
          v4m := setEntry acc.v4m n.macAddress res.1
          v6m := setEntry acc.v6m n.macAddress res.2.1
          v4primary := res.2.2.1
          v6primary := res.2.2.2 }

/-- `buildAndSelectGuestIPs`: gathers default gateways, scans interfaces in
ascending device-config-id order, assembles the full address list in device
order (IPv4 before IPv6 per device), falls back to the legacy flat address
when the structured scan found nothing, and selects the primary (IPv4
candidate, else IPv6 candidate, else the first listed address).  Finding no
address at all records the empty list and returns without error, leaving
the primary untouched; otherwise the primary is recorded and published as
the SSH connection host. -/
def buildAndSelectGuestIPs (guest : GuestInfo) (st : GuestState) :
    Except String GuestState :=
  let gws := gatherGateways guest.ipStack
  let sortedNets := guest.net.mergeSort
    (fun a b => decide (a.deviceConfigId ≤ b.deviceConfigId))
  let acc := scanGuestNets gws.1 gws.2 sortedNets
    { macs := [], v4m := [], v6m := [], v4primary := none, v6primary := none }
  let addrs := acc.macs.foldl
    (fun l mac => l ++ lookupEntry acc.v4m mac ++ lookupEntry acc.v6m mac) []
  let addrs :=
    match addrs, guest.ipAddress with
    | [], some ip => [ip]
    | l, _ => l
  match addrs with
  | [] => .ok { st with guest_ip_addresses := [] }
  | a :: rest =>
    let primary :=
      match acc.v4primary, acc.v6primary with
      | some p, _ => p
      | none, some p => p
      | none, none => a
    .ok { st with
          default_ip_address := some primary
          guest_ip_addresses := a :: rest
          connHost := some primary }

/-- First-match update of a family's primary candidate over a list of
addresses: with no gateway nothing matches, an already-set candidate is
kept, and an unset candidate becomes the first address whose network equals
the gateway's network. -/
def candUpd (gw p : Option IpAddr) (l : List GuestIpAddress) : Option IpAddr :=
  match gw, p with
  | some g, none =>
    (l.find? (fun a => a.ipAddress.maskedEq g a.prefixLength)).map
      (fun a => a.ipAddress)
  | _, _ => p

/-- The reported addresses of one family, in interface order (interfaces
without an `IpConfig` contribute nothing), as the selection policy reads
them. -/
def familyAddrs (v4side : Bool) : List GuestNicInfo → List GuestIpAddress
  | [] => []
  | n :: rest =>
    match n.ipConfig with
    | none => familyAddrs v4side rest
    | some l => l.filter (fun a => a.ipAddress.isV4 = v4side) ++ familyAddrs v4side rest

/-- The selection policy's primary candidate for one family: the first
address of that family (in sorted device order) whose network, masked by
its prefix length, equals the family gateway's network; none without a
gateway or without a match. -/
def guestCandidate (gw : Option IpAddr) (v4side : Bool) (ns : List GuestNicInfo) :
    Option IpAddr :=
  match gw with
  | none => none
  | some g =>
    ((familyAddrs v4side ns).find? (fun a => a.ipAddress.maskedEq g a.prefixLength)).map
      (fun a => a.ipAddress)

/-- The spec a settled record (prior state equal to current state) expands
to: no pending extra-config or vApp delta, every other component read from
the record through the component expanders. -/
def settledSpec (r : VMRecord) (v : VSphereVersion) : VirtualMachineConfigSpec where
  name := r.name
  guestId := r.guest_id
  alternateGuestName := r.alternate_guest_name
  annotationText := r.annotationText
  tools := expandToolsConfigInfo { old := r, cur := r, id := "" } v
  flags := expandVirtualMachineFlagInfo { old := r, cur := r, id := "" } v
  numCPUs := r.num_cpus
  numCoresPerSocket := r.num_cores_per_socket
  memoryMB := r.memory
  memoryHotAddEnabled := some r.memory_hot_add_enabled
  cpuHotAddEnabled := some r.cpu_hot_add_enabled
  cpuHotRemoveEnabled := some r.cpu_hot_remove_enabled
  cpuAllocation := expandVirtualMachineResourceAllocation { old := r, cur := r, id := "" } .cpu
  memoryAllocation := expandVirtualMachineResourceAllocation { old := r, cur := r, id := "" } .memory
  memoryReservationLockedToMax := getMemoryReservationLockedToMax { old := r, cur := r, id := "" }
  extraConfig := []
  swapPlacement := r.swap_placement_policy
  bootOptions := expandVirtualMachineBootOptions { old := r, cur := r, id := "" } v
  vAppConfig := none
  firmware := r.firmware
  nestedHVEnabled := some r.nested_hv_enabled
  vpmcEnabled := some r.cpu_performance_counters_enabled
  latencySensitivity := expandLatencySensitivity { old := r, cur := r, id := "" }
  vmProfile := expandVirtualMachineProfileSpec { old := r, cur := r, id := "" }
  version := getHardwareVersionID r.hardware_version

/-- A settled data value over the fresh record. -/
def freshVMData (i : String) : VMData :=
  { old := freshVMRecord, cur := freshVMRecord, id := i }

/-- A settled record carrying a storage policy, for exercising the
round-trip through the config-info flattener. -/
def spRecord : VMRecord := { freshVMRecord with storage_policy_id := "sp-1" }

/-- A data value with a pending vApp change naming an identifier the live
object does not declare. -/
def vappBadData : VMData :=
  { old := freshVMRecord
    cur := { freshVMRecord with vapp := some [("bogus", "1")] }
    id := "u1" }

/-- A record with one recorded extra-config key. -/
def ecRecord : VMRecord := { freshVMRecord with extra_config := [("a", "1")] }

/-- A tools payload for exercising the flatten side of the version gate. -/
def toolsObj0 : ToolsConfigInfo where
  syncTimeWithHost := some false
  syncTimeWithHostAllowed := some true
  toolsUpgradePolicy := "manual"
  afterPowerOn := some true
  afterResume := some true
  beforeGuestStandby := some true
  beforeGuestShutdown := some true
  beforeGuestReboot := some false

/-- The guest report of the spec's gateway-match example: one interface
with addresses 192.168.1.5/24 and 10.0.0.5/24 and a default IPv4 route via
10.0.0.1. -/
def exampleGuest : GuestInfo where
  ipStack :=
    [{ ipRouteConfig := some [{ network := "0.0.0.0", gateway := some (.v4 (10*16777216 + 1)) }] }]
  net :=
    [{ deviceConfigId := 4000, macAddress := "00:50:56:aa:bb:cc",
       ipConfig := some
         [{ ipAddress := .v4 (192*16777216 + 168*65536 + 256 + 5), prefixLength := 24 },
          { ipAddress := .v4 (10*16777216 + 5), prefixLength := 24 }] }]
  ipAddress := none

/-- An empty guest state for the examples. -/
def emptyGuestState : GuestState :=
  { default_ip_address := none, guest_ip_addresses := [], connHost := none }

/-- C3: for every old/new CPU-count pair with pre-change hot-add and
hot-remove capability flags, the classifier returns the new CPU count and
flags a restart exactly when the count grows with the pre-change hot-add
flag off or shrinks with the pre-change hot-remove flag off; the decision
reads only the pre-change (old) capability flags, and an increase with
hot-add enabled leaves the restart flag as it was. -/
theorem cpu_count_classification (d : VMData) :
    expandCPUCountConfig d =
      (d.cur.num_cpus,
       if (d.old.num_cpus < d.cur.num_cpus ∧ d.old.cpu_hot_add_enabled = false)
          ∨ (d.cur.num_cpus < d.old.num_cpus ∧ d.old.cpu_hot_remove_enabled = false)
       then setRebootRequired d else d) := by
  unfold expandCPUCountConfig
  rcases lt_trichotomy d.old.num_cpus d.cur.num_cpus with h | h | h
  · cases ha : d.old.cpu_hot_add_enabled <;>
      simp [h, lt_asymm h, ha]
  · simp [h, lt_irrefl]
  · cases hr : d.old.cpu_hot_remove_enabled <;>
      simp [h, lt_asymm h, hr]

/-- C4: for every old/new memory-size pair with a pre-change memory
hot-add capability flag, the classifier returns the new memory size and
flags a restart exactly when the size grows with the pre-change hot-add
flag off or shrinks at all (shrinking restarts unconditionally); no change
leaves the restart flag as it was. -/
theorem memory_size_classification (d : VMData) :
    expandMemorySizeConfig d =
      (d.cur.memory,
       if (d.old.memory < d.cur.memory ∧ d.old.memory_hot_add_enabled = false)
          ∨ d.cur.memory < d.old.memory
       then setRebootRequired d else d) := by
  unfold expandMemorySizeConfig
  rcases lt_trichotomy d.old.memory d.cur.memory with h | h | h
  · cases ha : d.old.memory_hot_add_enabled <;>
      simp [h, lt_asymm h, ha]
  · simp [h, lt_irrefl]
  · simp [h, lt_asymm h]

/-- C5: whenever the Config Diff Engine returns an effective update spec,
that spec's creation-only hardware-version field is cleared, so the
hardware version is never part of an update payload. -/
theorem update_spec_version_cleared (d : VMData) (v : VSphereVersion)
    (remote : Option VmConfigInfo) (info : VirtualMachineConfigInfo) :
    match expandVirtualMachineConfigSpecChanged d v remote info with
    | .ok p => p.1.version = ""
    | .error _ => True := by
  unfold expandVirtualMachineConfigSpecChanged
  cases h1 : expandVirtualMachineConfigSpec
      { old := flattenVirtualMachineConfigInfo freshVMRecord info v
        cur := flattenVirtualMachineConfigInfo freshVMRecord info v
        id := d.id } v remote with
  | error e => simp [h1]
  | ok oldSpec =>
    cases h2 : expandVirtualMachineConfigSpec d v remote with
    | error e => simp [h1, h2]
    | ok newSpec => simp [h1, h2]

/-- C8: the periodic host-time-synchronization field, gated on minimum
remote version 7.0.1, is omitted from the expanded tools payload below
7.0.1 and included from 7.0.1 on, and the flattener likewise skips reading
it below 7.0.1; 6.7.0 is below the gate and 7.0.1 satisfies it. -/
theorem tools_sync_version_gate (d : VMData) (r : VMRecord)
    (obj : ToolsConfigInfo) (v : VSphereVersion) :
    (v.atLeast ⟨7, 0, 1⟩ = false →
        (expandToolsConfigInfo d v).syncTimeWithHostAllowed = none
      ∧ (expandToolsConfigInfo d v).syncTimeWithHost = some d.cur.sync_time_with_host
      ∧ (flattenToolsConfigInfo r obj v).sync_time_with_host_periodically =
          r.sync_time_with_host_periodically)
    ∧ (v.atLeast ⟨7, 0, 1⟩ = true →
        (expandToolsConfigInfo d v).syncTimeWithHostAllowed =
          some d.cur.sync_time_with_host
      ∧ (expandToolsConfigInfo d v).syncTimeWithHost =
          some d.cur.sync_time_with_host_periodically
      ∧ (flattenToolsConfigInfo r obj v).sync_time_with_host_periodically =
          setOptBool r.sync_time_with_host_periodically obj.syncTimeWithHost)
    ∧ VSphereVersion.atLeast ⟨6, 7, 0⟩ ⟨7, 0, 1⟩ = false
    ∧ VSphereVersion.atLeast ⟨7, 0, 1⟩ ⟨7, 0, 1⟩ = true := by
  refine ⟨fun h => ?_, fun h => ?_, by decide, by decide⟩
  · exact ⟨by simp [expandToolsConfigInfo, h], by simp [expandToolsConfigInfo, h],
      by simp [flattenToolsConfigInfo, h]⟩
  · exact ⟨by simp [expandToolsConfigInfo, h], by simp [expandToolsConfigInfo, h],
      by simp [flattenToolsConfigInfo, h]⟩

/-- Witness for the version gate: the two branches exercised at remote
versions 6.7.0 and 7.0.1 on concrete data. -/
theorem tools_sync_version_gate_witness :
    ((expandToolsConfigInfo (freshVMData "") ⟨6, 7, 0⟩).syncTimeWithHostAllowed = none
      ∧ (expandToolsConfigInfo (freshVMData "") ⟨6, 7, 0⟩).syncTimeWithHost =
          some (freshVMData "").cur.sync_time_with_host
      ∧ (flattenToolsConfigInfo freshVMRecord toolsObj0 ⟨6, 7, 0⟩).sync_time_with_host_periodically =
          freshVMRecord.sync_time_with_host_periodically)
    ∧ ((expandToolsConfigInfo (freshVMData "") ⟨7, 0, 1⟩).syncTimeWithHostAllowed =
          some (freshVMData "").cur.sync_time_with_host
      ∧ (expandToolsConfigInfo (freshVMData "") ⟨7, 0, 1⟩).syncTimeWithHost =
          some (freshVMData "").cur.sync_time_with_host_periodically
      ∧ (flattenToolsConfigInfo freshVMRecord toolsObj0 ⟨7, 0, 1⟩).sync_time_with_host_periodically =
          setOptBool freshVMRecord.sync_time_with_host_periodically toolsObj0.syncTimeWithHost) :=
  ⟨(tools_sync_version_gate (freshVMData "") freshVMRecord toolsObj0 ⟨6, 7, 0⟩).1 (by decide),
   (tools_sync_version_gate (freshVMData "") freshVMRecord toolsObj0 ⟨7, 0, 1⟩).2.1 (by decide)⟩

theorem setKey_keys (m : List (String × String)) (k v : String) :
    ∀ x ∈ (setKey m k v).map (fun kv => kv.1),
      x = k ∨ x ∈ m.map (fun kv => kv.1) := by
  induction m with
  | nil => simp [setKey]
  | cons hd tl ih =>
    intro x hx
    by_cases h : hd.1 = k
    · simp [setKey, h] at hx
      rcases hx with hx | hx
      · exact Or.inl hx
      · exact Or.inr (by simp [hx])
    · simp [setKey, h] at hx
      rcases hx with hx | hx
      · exact Or.inr (by simp [hx])
      · rcases ih x (by simpa using hx) with h' | h'
        · exact Or.inl h'
        · exact Or.inr (by simp at h' ⊢; exact Or.inr h')

theorem flattenExtraConfig_foldl_keys (r : VMRecord) :
    ∀ (opts : List OptionValue) (acc : List (String × String)),
      (∀ x ∈ acc.map (fun kv => kv.1), x ∈ r.extra_config.map (fun kv => kv.1)) →
      ∀ x ∈ ((opts.foldl (fun acc2 ov =>
          if r.extra_config.any (fun kv => ov.key = kv.1) then setKey acc2 ov.key ov.value
          else acc2) acc).map (fun kv => kv.1)),
        x ∈ r.extra_config.map (fun kv => kv.1) := by
  intro opts
  induction opts with
  | nil => intro acc hacc; simpa using hacc
  | cons ov rest ih =>
    intro acc hacc x hx
    refine ih _ ?_ x (by simpa using hx)
    by_cases hc : r.extra_config.any (fun kv => ov.key = kv.1)
    · intro y hy
      rcases setKey_keys acc ov.key ov.value y (by simpa [hc] using hy) with h | h
      · subst h
        rcases List.any_eq_true.mp hc with ⟨kv, hkv, he⟩
        exact List.mem_map.mpr ⟨kv, hkv, (of_decide_eq_true he).symm⟩
      · exact hacc y h
    · intro y hy
      exact hacc y (by simpa [hc] using hy)

/-- C10: flattening the live extra-config writes only keys already present
in the recorded `extra_config` map (a key maintained out-of-band by the
remote system never enters recorded state), and an empty live option list
leaves the record entirely unchanged. -/
theorem extra_config_flatten_frame (r : VMRecord) (opts : List OptionValue) :
    (opts = [] → flattenExtraConfig r opts = r)
    ∧ ∀ k, k ∈ (flattenExtraConfig r opts).extra_config.map (fun kv => kv.1) →
        k ∈ r.extra_config.map (fun kv => kv.1) := by
  constructor
  · intro h; subst h; simp [flattenExtraConfig]
  · intro k hk
    by_cases hlen : opts.length < 1
    · simpa [flattenExtraConfig, hlen] using hk
    · simp only [flattenExtraConfig, hlen, if_neg, if_false] at hk
      exact flattenExtraConfig_foldl_keys r opts [] (by simp) k (by simpa using hk)

/-- Witness for the extra-config frame property: the no-op case and a
written key that was already recorded, on concrete data. -/
theorem extra_config_flatten_frame_witness :
    flattenExtraConfig ecRecord [] = ecRecord ∧
    "a" ∈ ecRecord.extra_config.map (fun kv => kv.1) :=
  ⟨(extra_config_flatten_frame ecRecord []).1 rfl,
   (extra_config_flatten_frame ecRecord [{ key := "a", value := "2" }]).2 "a" (by decide)⟩

theorem expandVAppConfig_settled (r : VMRecord) (i : String)
    (remote : Option VmConfigInfo) :
    expandVAppConfig { old := r, cur := r, id := i } remote = .ok none := by
  simp [expandVAppConfig]

theorem expandSpec_settled (r : VMRecord) (i : String) (v : VSphereVersion)
    (remote : Option VmConfigInfo) :
    expandVirtualMachineConfigSpec { old := r, cur := r, id := i } v remote =
      .ok (settledSpec r v) := by
  rw [expandVirtualMachineConfigSpec, expandVAppConfig_settled]
  simp [settledSpec, expandToolsConfigInfo, expandVirtualMachineFlagInfo,
    expandCPUCountConfig, expandMemorySizeConfig,
    expandVirtualMachineResourceAllocation, getMemoryReservationLockedToMax,
    expandExtraConfig, expandVirtualMachineBootOptions, expandLatencySensitivity,
    expandVirtualMachineProfileSpec]

/-- C1: running the Config Diff Engine with a live configuration against a
record that was flattened from that same configuration (the new side
re-expanded through the same path as the old side, which the engine itself
produces by flattening into a fresh record) reports no change. -/
theorem config_diff_noop (info : VirtualMachineConfigInfo) (v : VSphereVersion)
    (remote : Option VmConfigInfo) (i : String) :
    (expandVirtualMachineConfigSpecChanged
        { old := flattenVirtualMachineConfigInfo freshVMRecord info v
          cur := flattenVirtualMachineConfigInfo freshVMRecord info v
          id := i } v remote info).map (fun p => p.2) = Except.ok false := by
  simp [expandVirtualMachineConfigSpecChanged, expandSpec_settled, Except.map]

theorem freshVMRecord_storage_policy_id : freshVMRecord.storage_policy_id = "" := rfl

theorem roundtrip_core (r : VMRecord) (hsp : r.storage_policy_id = "")
    (cv u : String) (v : VSphereVersion) :
    ({ settledSpec
        (flattenVirtualMachineConfigInfo freshVMRecord
          ((settledSpec r v).toInfo cv u) v) v with version := "" } :
      VirtualMachineConfigSpec) =
      { settledSpec r v with version := "" } := by
  cases h701 : v.atLeast ⟨7, 0, 1⟩ <;>
  cases h670 : v.atLeast ⟨6, 7, 0⟩ <;>
  cases h650 : v.newer ⟨6, 5, 0⟩ <;>
  by_cases hm : r.memory = r.memory_reservation <;>
  cases hl : r.memory_reservation_locked_to_max <;>
    simp [settledSpec, VirtualMachineConfigSpec.toInfo,
      flattenVirtualMachineConfigInfo, flattenToolsConfigInfo,
      flattenVirtualMachineFlagInfo, flattenVirtualMachineResourceAllocation,
      flattenExtraConfig, flattenVAppConfig, flattenLatencySensitivity,
      flattenVirtualMachineBootOptions, setOptBool, setOptInt,
      expandToolsConfigInfo, expandVirtualMachineFlagInfo,
      expandVirtualMachineBootOptions, expandLatencySensitivity,
      expandVirtualMachineResourceAllocation, getMemoryReservationLockedToMax,
      expandVirtualMachineProfileSpec, freshVMRecord_storage_policy_id,
      hsp, h701, h670, h650, hm, hl]

/-- C2 (amended): for every MachineConfig value built from a valid settled
configuration that sets no storage policy, expanding the record obtained by
flattening it yields a MachineConfig structurally equal to it once the
creation-only hardware-version field of both is cleared.  (The storage
policy must be absent because the config-info flattener does not record the
storage-policy reference, so a configured policy does not survive the
round trip.) -/
theorem config_roundtrip_amended (r : VMRecord) (i i' cv u : String)
    (v : VSphereVersion) (remote remote' : Option VmConfigInfo) :
    match expandVirtualMachineConfigSpec
        { old := { r with storage_policy_id := "" }
          cur := { r with storage_policy_id := "" }
          id := i } v remote with
    | .ok M =>
      (expandVirtualMachineConfigSpec
          { old := flattenVirtualMachineConfigInfo freshVMRecord (M.toInfo cv u) v
            cur := flattenVirtualMachineConfigInfo freshVMRecord (M.toInfo cv u) v
            id := i' } v remote').map (fun s => { s with version := "" }) =
        Except.ok { M with version := "" }
    | .error _ => False := by
  rw [expandSpec_settled]
  refine Eq.trans ?_ (congrArg Except.ok (roundtrip_core _ rfl cv u v))
  rw [expandSpec_settled]
  rfl

/-- Counterexample to C2 as stated: the settled configuration `spRecord`
(storage policy `sp-1`) yields a spec whose profile reference the
flattener drops, so the re-expanded spec differs from the original even
after clearing the hardware-version field of both. -/
theorem config_roundtrip_counterexample :
    match expandVirtualMachineConfigSpec
        { old := spRecord, cur := spRecord, id := "u2" } ⟨8, 0, 0⟩ none with
    | .ok M =>
      match expandVirtualMachineConfigSpec
          { old := flattenVirtualMachineConfigInfo freshVMRecord (M.toInfo "cv" "u") ⟨8, 0, 0⟩
            cur := flattenVirtualMachineConfigInfo freshVMRecord (M.toInfo "cv" "u") ⟨8, 0, 0⟩
            id := "u3" } ⟨8, 0, 0⟩ none with
      | .ok M2 =>
        M.vmProfile = [{ profileId := "sp-1" }] ∧ M2.vmProfile = []
          ∧ ¬ ({ M2 with version := "" } = { M with version := "" })
      | .error _ => False
    | .error _ => False := by
  simp only [expandSpec_settled]
  decide

theorem removeKey_keeps (m : List (String × String)) (k pid : String)
    (hne : k ≠ pid) (hk : k ∈ m.map (fun kv => kv.1)) :
    k ∈ (removeKey m pid).map (fun kv => kv.1) := by
  rcases List.mem_map.mp hk with ⟨kv, hkv, hfst⟩
  refine List.mem_map.mpr ⟨kv, ?_, hfst⟩
  refine List.mem_filter.mpr ⟨hkv, ?_⟩
  simp [hfst, hne]

theorem expandVAppPropsLoop_bad (hidden : Bool) (k : String) :
    ∀ (props : List VAppPropertyInfo) (m : List (String × String))
      (acc : List VAppPropertySpec),
      k ∈ m.map (fun kv => kv.1) →
      (∀ p ∈ props, p.id = k → hidden = false ∧ p.userConfigurable = false) →
      (∃ e, expandVAppPropsLoop hidden props m acc = .error e)
      ∨ ∃ pr m', expandVAppPropsLoop hidden props m acc = .ok (pr, m')
          ∧ k ∈ m'.map (fun kv => kv.1) := by
  intro props
  induction props with
  | nil =>
    intro m acc hk _
    exact Or.inr ⟨acc, m, rfl, hk⟩
  | cons p rest ih =>
    intro m acc hk hprops
    have hrest : ∀ q ∈ rest, q.id = k → hidden = false ∧ q.userConfigurable = false :=
      fun q hq => hprops q (List.mem_cons_of_mem p hq)
    have hpk : p.id = k → hidden = false ∧ p.userConfigurable = false :=
      hprops p (List.mem_cons_self p rest)
    cases hh : hidden with
    | true =>
      have hne : k ≠ p.id := by
        intro he
        have h2 := (hpk he.symm).1
        simp [hh] at h2
      have hk' : k ∈ (if (lookupKey m p.id).isSome then removeKey m p.id else m).map
          (fun kv => kv.1) := by
        by_cases hl : (lookupKey m p.id).isSome
        · simpa [hl] using removeKey_keeps m k p.id hne hk
        · simpa [hl] using hk
      simpa [expandVAppPropsLoop, hh] using ih _ _ hk' (hh ▸ hrest)
    | false =>
      cases hcfg : p.userConfigurable with
      | true =>
        have hne : k ≠ p.id := by
          intro he
          have h2 := (hpk he.symm).2
          simp [hcfg] at h2
        have hk' : k ∈ (if (lookupKey m p.id).isSome then removeKey m p.id else m).map
            (fun kv => kv.1) := by
          by_cases hl : (lookupKey m p.id).isSome
          · simpa [hl] using removeKey_keeps m k p.id hne hk
          · simpa [hl] using hk
        simpa [expandVAppPropsLoop, hh, hcfg] using ih _ _ hk' (hh ▸ hrest)
      | false =>
        by_cases hl : (lookupKey m p.id).isSome
        · refine Or.inl ⟨"vApp property with userConfigurable=false specified in vapp.properties: "
            ++ String.intercalate ", " (m.map (fun kv => kv.1)), ?_⟩
          simp [expandVAppPropsLoop, hh, hcfg, hl]
        · simpa [expandVAppPropsLoop, hh, hcfg, hl] using ih _ _ hk (hh ▸ hrest)

/-- C6: a configuration whose vApp properties name an identifier that is
not declared on the live object, or that is declared only as
non-user-configurable while the hidden-properties override is inactive,
makes the config-spec expansion abort with an error, so no update spec is
produced and no remote update call can be issued. -/
theorem vapp_unknown_property_rejected (d : VMData) (cfg : VmConfigInfo)
    (v : VSphereVersion) (k : String)
    (hchange : d.old.vapp ≠ d.cur.vapp) (hid : d.id ≠ "")
    (hk : k ∈ (d.cur.vapp.getD []).map (fun kv => kv.1))
    (hbad : (∀ p ∈ cfg.property, p.id ≠ k)
      ∨ (d.cur.enable_hidden_properties = false
         ∧ ∀ p ∈ cfg.property, p.id = k → p.userConfigurable = false)) :
    ∃ e, expandVirtualMachineConfigSpec d v (some cfg) = .error e := by
  have hprops : ∀ p ∈ cfg.property, p.id = k →
      d.cur.enable_hidden_properties = false ∧ p.userConfigurable = false := by
    rcases hbad with hmiss | ⟨hhid, hcfg⟩
    · intro p hp he; exact absurd he (hmiss p hp)
    · intro p hp he; exact ⟨hhid, hcfg p hp he⟩
  have hloop := expandVAppPropsLoop_bad d.cur.enable_hidden_properties k
    cfg.property (d.cur.vapp.getD []) [] hk hprops
  have hva : ∃ e, expandVAppConfig d (some cfg) = .error e := by
    rcases hloop with ⟨e, he⟩ | ⟨pr, m', hok, hkm⟩
    · exact ⟨e, by simp [expandVAppConfig, hchange, hid, he]⟩
    · have hm' : 0 < m'.length := by
        cases m' with
        | nil => simp at hkm
        | cons a l => simp
      refine ⟨"unsupported vApp properties in vapp.properties: "
        ++ String.intercalate ", " (m'.map (fun kv => kv.1)), ?_⟩
      simp [expandVAppConfig, hchange, hid, hok, hm']
  rcases hva with ⟨e, he⟩
  exact ⟨e, by simp [expandVirtualMachineConfigSpec, he]⟩

/-- Witness for the vApp rejection: a pending vApp change naming `bogus`,
which the live object (declaring no properties) does not have. -/
theorem vapp_unknown_property_rejected_witness :
    ∃ e, expandVirtualMachineConfigSpec vappBadData ⟨8, 0, 0⟩
        (some { property := [], ovfEnvironmentTransport := [] }) = .error e :=
  vapp_unknown_property_rejected vappBadData
    { property := [], ovfEnvironmentTransport := [] } ⟨8, 0, 0⟩ "bogus"
    (by decide) (by decide) (by decide) (Or.inl (by simp))

theorem setEntry_nil_entries (m : List (String × List IpAddr)) (mac : String)
    (hm : ∀ e ∈ m, e.2 = ([] : List IpAddr)) :
    ∀ e ∈ setEntry m mac [], e.2 = ([] : List IpAddr) := by
  induction m with
  | nil =>
    intro e he
    simp [setEntry] at he
    simp [he]
  | cons hd tl ih =>
    intro e he
    have hhd : hd.2 = ([] : List IpAddr) := hm hd (List.mem_cons_self hd tl)
    have htl : ∀ e ∈ tl, e.2 = ([] : List IpAddr) :=
      fun e2 he2 => hm e2 (List.mem_cons_of_mem hd he2)
    by_cases h : hd.1 = mac
    · simp [setEntry, h] at he
      rcases he with he | he
      · simp [he]
      · exact hm e (List.mem_cons_of_mem hd he)
    · simp [setEntry, h] at he
      rcases he with he | he
      · simp [he, hhd]
      · exact ih htl e he

theorem lookupEntry_of_nil_entries (m : List (String × List IpAddr))
    (hm : ∀ e ∈ m, e.2 = ([] : List IpAddr)) (x : String) :
    lookupEntry m x = [] := by
  unfold lookupEntry
  rcases h : m.find? (fun e => e.1 = x) with _ | e
  · simp [h]
  · simp [h, hm e (List.mem_of_find?_eq_some h)]

theorem scanGuestNets_nil_addrs (g4 g6 : Option IpAddr) :
    ∀ (ns : List GuestNicInfo) (acc : GuestScanAcc),
      (∀ n ∈ ns, n.ipConfig.getD [] = []) →
      (∀ e ∈ acc.v4m, e.2 = ([] : List IpAddr)) →
      (∀ e ∈ acc.v6m, e.2 = ([] : List IpAddr)) →
      (∀ e ∈ (scanGuestNets g4 g6 ns acc).v4m, e.2 = ([] : List IpAddr))
      ∧ (∀ e ∈ (scanGuestNets g4 g6 ns acc).v6m, e.2 = ([] : List IpAddr))
      ∧ (scanGuestNets g4 g6 ns acc).v4primary = acc.v4primary
      ∧ (scanGuestNets g4 g6 ns acc).v6primary = acc.v6primary := by
  intro ns
  induction ns with
  | nil => intro acc _ h4 h6; exact ⟨h4, h6, rfl, rfl⟩
  | cons n rest ih =>
    intro acc hns h4 h6
    have hn : n.ipConfig.getD [] = [] := hns n (List.mem_cons_self n rest)
    have hrest : ∀ n2 ∈ rest, n2.ipConfig.getD [] = [] :=
      fun n2 hn2 => hns n2 (List.mem_cons_of_mem n hn2)
    cases hcfg : n.ipConfig with
    | none => simpa [scanGuestNets, hcfg] using ih acc hrest h4 h6
    | some l =>
      have hl : l = [] := by simpa [hcfg] using hn
      subst hl
      have := ih
        { macs := acc.macs ++ [n.macAddress]
          v4m := setEntry acc.v4m n.macAddress []
          v6m := setEntry acc.v6m n.macAddress []
          v4primary := acc.v4primary
          v6primary := acc.v6primary } hrest
        (setEntry_nil_entries acc.v4m n.macAddress h4)
        (setEntry_nil_entries acc.v6m n.macAddress h6)
      simpa [scanGuestNets, hcfg, scanNicAddrs] using this

theorem foldl_addrs_nil (m4 m6 : List (String × List IpAddr))
    (h4 : ∀ e ∈ m4, e.2 = ([] : List IpAddr))
    (h6 : ∀ e ∈ m6, e.2 = ([] : List IpAddr)) :
    ∀ (macs : List String) (l0 : List IpAddr),
      macs.foldl (fun l mac => l ++ lookupEntry m4 mac ++ lookupEntry m6 mac) l0 = l0 := by
  intro macs
  induction macs with
  | nil => intro l0; rfl
  | cons mac rest ih =>
    intro l0
    rw [List.foldl_cons, lookupEntry_of_nil_entries m4 h4 mac,
      lookupEntry_of_nil_entries m6 h6 mac, List.append_nil, List.append_nil]
    exact ih l0

/-- C9: with no addresses in the structured per-interface data, the
selector falls back to the legacy flat address field when that is
populated; and when that too is empty, the result records an empty address
list, leaves the primary untouched, and returns without error. -/
theorem guest_empty_addresses (guest : GuestInfo) (st : GuestState)
    (hempty : ∀ n ∈ guest.net, n.ipConfig.getD [] = []) :
    (guest.ipAddress = none →
      buildAndSelectGuestIPs guest st = .ok { st with guest_ip_addresses := [] })
    ∧ ∀ ip, guest.ipAddress = some ip →
        buildAndSelectGuestIPs guest st =
          .ok { st with default_ip_address := some ip,
                        guest_ip_addresses := [ip], connHost := some ip } := by
  have hsorted : ∀ n ∈ guest.net.mergeSort
      (fun a b => decide (a.deviceConfigId ≤ b.deviceConfigId)),
      n.ipConfig.getD [] = [] :=
    fun n hn => hempty n (List.mem_mergeSort.mp hn)
  have hscan := scanGuestNets_nil_addrs
    (gatherGateways guest.ipStack).1 (gatherGateways guest.ipStack).2
    (guest.net.mergeSort (fun a b => decide (a.deviceConfigId ≤ b.deviceConfigId)))
    { macs := [], v4m := [], v6m := [], v4primary := none, v6primary := none }
    hsorted (fun e he => absurd he (List.not_mem_nil e))
    (fun e he => absurd he (List.not_mem_nil e))
  have haddrs := foldl_addrs_nil _ _ hscan.1 hscan.2.1
    (scanGuestNets (gatherGateways guest.ipStack).1 (gatherGateways guest.ipStack).2
      (guest.net.mergeSort (fun a b => decide (a.deviceConfigId ≤ b.deviceConfigId)))
      { macs := [], v4m := [], v6m := [], v4primary := none, v6primary := none }).macs []
  constructor
  · intro hip
    simp only [buildAndSelectGuestIPs]
    rw [haddrs, hip]
  · intro ip hip
    simp only [buildAndSelectGuestIPs]
    rw [haddrs, hip, hscan.2.2.1, hscan.2.2.2]

/-- Witness for the empty-addresses behaviour: an entirely empty guest
report, and one carrying only the legacy flat address. -/
theorem guest_empty_addresses_witness :
    buildAndSelectGuestIPs { ipStack := [], net := [], ipAddress := none }
        emptyGuestState =
      Except.ok { emptyGuestState with guest_ip_addresses := [] }
    ∧ buildAndSelectGuestIPs
        { ipStack := [], net := [], ipAddress := some (IpAddr.v4 7) } emptyGuestState =
      Except.ok
        { emptyGuestState with
          default_ip_address := some (IpAddr.v4 7)
          guest_ip_addresses := [IpAddr.v4 7]
          connHost := some (IpAddr.v4 7) } :=
  ⟨(guest_empty_addresses { ipStack := [], net := [], ipAddress := none }
      emptyGuestState (by simp)).1 rfl,
   (guest_empty_addresses { ipStack := [], net := [], ipAddress := some (IpAddr.v4 7) }
      emptyGuestState (by simp)).2 (IpAddr.v4 7) rfl⟩

theorem candUpd_none_gw (p : Option IpAddr) (l : List GuestIpAddress) :
    candUpd none p l = p := rfl

theorem candUpd_some_p (gw : Option IpAddr) (y : IpAddr) (l : List GuestIpAddress) :
    candUpd gw (some y) l = some y := by
  cases gw <;> rfl

theorem candUpd_nil (gw p) : candUpd gw p ([] : List GuestIpAddress) = p := by
  cases gw with
  | none => rfl
  | some g => cases p <;> rfl

theorem candUpd_cons_none (g : IpAddr) (a : GuestIpAddress) (l : List GuestIpAddress) :
    candUpd (some g) none (a :: l) =
      if a.ipAddress.maskedEq g a.prefixLength then some a.ipAddress
      else candUpd (some g) none l := by
  simp only [candUpd, List.find?_cons]
  by_cases h : a.ipAddress.maskedEq g a.prefixLength = true
  · simp [h]
  · simp [Bool.not_eq_true _ ▸ h, h]

theorem scanNicAddrs_v4primary (v4gw v6gw : Option IpAddr) :
    ∀ (l : List GuestIpAddress) (l4 l6 : List IpAddr) (p4 p6 : Option IpAddr),
      (scanNicAddrs v4gw v6gw l (l4, l6, p4, p6)).2.2.1 =
        candUpd v4gw p4 (l.filter (fun a => a.ipAddress.isV4 = true)) := by
  intro l
  induction l with
  | nil => intro l4 l6 p4 p6; simp [scanNicAddrs, candUpd_nil]
  | cons a rest ih =>
    intro l4 l6 p4 p6
    cases hip : a.ipAddress with
    | v4 x =>
      have hcls : (decide (a.ipAddress.isV4 = true)) = true := by
        simp [hip, IpAddr.isV4]
      rw [List.filter_cons, if_pos hcls]
      cases v4gw with
      | none =>
        rw [candUpd_none_gw]
        simp only [scanNicAddrs, hip]
        rw [ih, candUpd_none_gw]
      | some g =>
        cases p4 with
        | some y =>
          rw [candUpd_some_p]
          simp only [scanNicAddrs, hip]
          rw [ih, candUpd_some_p]
        | none =>
          rw [candUpd_cons_none]
          simp only [scanNicAddrs, hip]
          rw [ih]
          by_cases hmask : a.ipAddress.maskedEq g a.prefixLength = true
          · rw [hip] at hmask
            simp [hmask, hip, candUpd_some_p]
          · rw [hip] at hmask
            simp only [Bool.not_eq_true] at hmask
            simp [hmask, hip]
    | v6 x =>
      have hcls : (decide (a.ipAddress.isV4 = true)) = false := by
        simp [hip, IpAddr.isV4]
      rw [List.filter_cons, if_neg (by simp [hcls])]
      simp only [scanNicAddrs, hip]
      exact ih _ _ _ _

theorem scanNicAddrs_v6primary (v4gw v6gw : Option IpAddr) :
    ∀ (l : List GuestIpAddress) (l4 l6 : List IpAddr) (p4 p6 : Option IpAddr),
      (scanNicAddrs v4gw v6gw l (l4, l6, p4, p6)).2.2.2 =
        candUpd v6gw p6 (l.filter (fun a => a.ipAddress.isV4 = false)) := by
  intro l
  induction l with
  | nil => intro l4 l6 p4 p6; simp [scanNicAddrs, candUpd_nil]
  | cons a rest ih =>
    intro l4 l6 p4 p6
    cases hip : a.ipAddress with
    | v6 x =>
      have hcls : (decide (a.ipAddress.isV4 = false)) = true := by
        simp [hip, IpAddr.isV4]
      rw [List.filter_cons, if_pos hcls]
      cases v6gw with
      | none =>
        rw [candUpd_none_gw]
        simp only [scanNicAddrs, hip]
        rw [ih, candUpd_none_gw]
      | some g =>
        cases p6 with
        | some y =>
          rw [candUpd_some_p]
          simp only [scanNicAddrs, hip]
          rw [ih, candUpd_some_p]
        | none =>
          rw [candUpd_cons_none]
          simp only [scanNicAddrs, hip]
          rw [ih]
          by_cases hmask : a.ipAddress.maskedEq g a.prefixLength = true
          · rw [hip] at hmask
            simp [hmask, hip, candUpd_some_p]
          · rw [hip] at hmask
            simp only [Bool.not_eq_true] at hmask
            simp [hmask, hip]
    | v4 x =>
      have hcls : (decide (a.ipAddress.isV4 = false)) = false := by
        simp [hip, IpAddr.isV4]
      rw [List.filter_cons, if_neg (by simp [hcls])]
      simp only [scanNicAddrs, hip]
      exact ih _ _ _ _

theorem candUpd_append (gw : Option IpAddr) (p : Option IpAddr)
    (l1 l2 : List GuestIpAddress) :
    candUpd gw (candUpd gw p l1) l2 = candUpd gw p (l1 ++ l2) := by
  cases gw with
  | none => rfl
  | some g =>
    cases p with
    | some y => rw [candUpd_some_p, candUpd_some_p, candUpd_some_p]
    | none =>
      show candUpd _ ((List.find? _ l1).map _) _ = (List.find? _ (l1 ++ l2)).map _
      rw [List.find?_append]
      cases h : l1.find? (fun a => a.ipAddress.maskedEq g a.prefixLength) with
      | none => simp [candUpd]
      | some b => simp [candUpd_some_p]

theorem scanGuestNets_primaries (v4gw v6gw : Option IpAddr) :
    ∀ (ns : List GuestNicInfo) (acc : GuestScanAcc),
      (scanGuestNets v4gw v6gw ns acc).v4primary =
        candUpd v4gw acc.v4primary (familyAddrs true ns)
      ∧ (scanGuestNets v4gw v6gw ns acc).v6primary =
        candUpd v6gw acc.v6primary (familyAddrs false ns) := by
  intro ns
  induction ns with
  | nil => intro acc; rw [scanGuestNets]; exact ⟨(candUpd_nil _ _).symm, (candUpd_nil _ _).symm⟩
  | cons n rest ih =>
    intro acc
    cases hcfg : n.ipConfig with
    | none =>
      simp only [scanGuestNets, hcfg, familyAddrs]
      exact ih acc
    | some l =>
      simp only [scanGuestNets, hcfg, familyAddrs]
      constructor
      · rw [(ih _).1]
        simp only [GuestScanAcc.v4primary]
        rw [scanNicAddrs_v4primary, candUpd_append]
      · rw [(ih _).2]
        simp only [GuestScanAcc.v6primary]
        rw [scanNicAddrs_v6primary, candUpd_append]

theorem candUpd_init_none (gw : Option IpAddr) (side : Bool)
    (ns : List GuestNicInfo) :
    candUpd gw none (familyAddrs side ns) = guestCandidate gw side ns := by
  cases gw <;> rfl

theorem buildAndSelect_default_eq (guest : GuestInfo) (st : GuestState)
    (r : GuestState) (h : buildAndSelectGuestIPs guest st = .ok r) :
    r.default_ip_address =
      match r.guest_ip_addresses with
      | [] => st.default_ip_address
      | a :: _ =>
        some (match
            guestCandidate (gatherGateways guest.ipStack).1 true
              (guest.net.mergeSort (fun x y => decide (x.deviceConfigId ≤ y.deviceConfigId))),
            guestCandidate (gatherGateways guest.ipStack).2 false
              (guest.net.mergeSort (fun x y => decide (x.deviceConfigId ≤ y.deviceConfigId))) with
          | some p, _ => p
          | none, some p => p
          | none, none => a) := by
  have hsc := scanGuestNets_primaries (gatherGateways guest.ipStack).1
    (gatherGateways guest.ipStack).2
    (guest.net.mergeSort (fun x y => decide (x.deviceConfigId ≤ y.deviceConfigId)))
    { macs := [], v4m := [], v6m := [], v4primary := none, v6primary := none }
  have h4 := hsc.1.trans (candUpd_init_none _ true _)
  have h6 := hsc.2.trans (candUpd_init_none _ false _)
  simp only [buildAndSelectGuestIPs] at h
  split at h
  · injection h with h2
    subst h2
    rfl
  · injection h with h2
    subst h2
    simp only []
    rw [h4, h6]

theorem buildAndSelect_isOk (guest : GuestInfo) (st : GuestState) :
    ∃ r, buildAndSelectGuestIPs guest st = .ok r := by
  simp only [buildAndSelectGuestIPs]
  split
  · exact ⟨_, rfl⟩
  · exact ⟨_, rfl⟩

/-- C7: the selector's primary address is the first IPv4 address, in
sorted device order, whose network equals the default IPv4 gateway's
network (first match is never overwritten), else the analogous IPv6
candidate, else the first address of the full device-ordered list, else
the previously recorded value when the list is empty; in particular, with
default IPv4 gateway 10.0.0.1 and candidates 10.0.0.5/24 and 192.168.1.5/24
the primary is 10.0.0.5. -/
theorem guest_primary_selection (guest : GuestInfo) (st : GuestState) :
    (match buildAndSelectGuestIPs guest st with
     | .ok r =>
       r.default_ip_address =
         match r.guest_ip_addresses with
         | [] => st.default_ip_address
         | a :: _ =>
           some (match
               guestCandidate (gatherGateways guest.ipStack).1 true
                 (guest.net.mergeSort (fun x y => decide (x.deviceConfigId ≤ y.deviceConfigId))),
               guestCandidate (gatherGateways guest.ipStack).2 false
                 (guest.net.mergeSort (fun x y => decide (x.deviceConfigId ≤ y.deviceConfigId))) with
             | some p, _ => p
             | none, some p => p
             | none, none => a)
     | .error _ => False)
    ∧ (match buildAndSelectGuestIPs exampleGuest emptyGuestState with
       | .ok r => r.default_ip_address = some (IpAddr.v4 (10 * 16777216 + 5))
       | .error _ => False) := by
  constructor
  · rcases buildAndSelect_isOk guest st with ⟨r, hr⟩
    rw [hr]
    exact buildAndSelect_default_eq guest st r hr
  · have hsort : exampleGuest.net.mergeSort
        (fun x y => decide (x.deviceConfigId ≤ y.deviceConfigId)) = exampleGuest.net := by
      rw [show exampleGuest.net =
        [{ deviceConfigId := 4000, macAddress := "00:50:56:aa:bb:cc",
           ipConfig := some
             [{ ipAddress := .v4 (192 * 16777216 + 168 * 65536 + 256 + 5), prefixLength := 24 },
              { ipAddress := .v4 (10 * 16777216 + 5), prefixLength := 24 }] }] from rfl]
      exact List.mergeSort_singleton _
    have hy : buildAndSelectGuestIPs exampleGuest emptyGuestState =
        Except.ok
          { default_ip_address := some (IpAddr.v4 (10 * 16777216 + 5))
            guest_ip_addresses :=
              [IpAddr.v4 (192 * 16777216 + 168 * 65536 + 256 + 5), IpAddr.v4 (10 * 16777216 + 5)]
            connHost := some (IpAddr.v4 (10 * 16777216 + 5)) } := by
      simp only [buildAndSelectGuestIPs, hsort]
      rfl
    rw [hy]
